import Mathlib

/-!
Verification of the soundcheck_v2 dashboard core against its specification.

The Python source is shallowly embedded: pure request-handling logic becomes
Lean functions, database tables become explicit lists of rows, the SQL
queries built by `dashboard/queries.py` are given their list semantics
(WHERE becomes `List.filter`, aggregates become sums, LIMIT/OFFSET become
`take`/`drop`), and external collaborators (the pyotp TOTP engine and the
sha256 hexdigest from hashlib) are abstract function parameters.  Row
ordering performed by the database (ORDER BY) is presentation-only and no
verified property depends on it; the ORDER BY *clause construction* done by
the Python code is modelled separately as the string it builds.
-/

namespace Soundcheck

/-! ## String helpers mirroring the Python primitives used by the source -/

/-- Python `path.startswith(p)`, on the underlying character lists. -/
def pyStartswith (path p : String) : Bool :=
  p.data.isPrefixOf path.data

/-- Python `s.strip()`: remove leading and trailing whitespace. -/
def pyStrip (s : String) : String :=
  String.mk (((s.data.dropWhile Char.isWhitespace).reverse.dropWhile
    Char.isWhitespace).reverse)

/-- Python `s.upper()` (ASCII portion, which covers the hex recovery codes
and numeric TOTP codes handled by the source). -/
def pyUpper (s : String) : String :=
  String.mk (s.data.map Char.toUpper)

/-- Python `code.isdigit() and len(code) == 6` from `mfa_verify_view`.
`isdigit` is modelled as the decimal-digit test, which coincides with the
Python behaviour on all ASCII input. -/
def isSixDigits (code : String) : Bool :=
  code.data.all (fun c => c.isDigit) && code.length == 6

/-! ## MFA enforcement middleware (accounts/middleware.py) -/

/-- The exempt URL path fragments, from `MFA_EXEMPT_PATHS`. -/
def MFA_EXEMPT_PATHS : List String :=
  [ "/auth/login/"
  , "/auth/logout/"
  , "/auth/mfa/setup/"
  , "/auth/mfa/verify/"
  , "/auth/password-reset/"
  , "/auth/password-reset/confirm/"
  , "/static/" ]

/-- Outcome of the middleware gate for one request. -/
inductive GateDecision where
  | proceed : GateDecision
  | redirectSetup : GateDecision
  | redirectVerify : GateDecision
  deriving DecidableEq, Repr

/-- `MFAEnforcementMiddleware.__call__`, as a pure decision on the request
path, the user's `mfa_enabled` flag and the session's `mfa_verified` flag.
`proceed` stands for `self.get_response(request)`. -/
def mfaEnforcement (isAuthenticated : Bool) (path : String)
    (mfa_enabled : Bool) (mfa_verified : Bool) : GateDecision :=
  if isAuthenticated then
    if MFA_EXEMPT_PATHS.any (fun p => pyStartswith path p) then
      GateDecision.proceed
    else if !mfa_enabled then
      GateDecision.redirectSetup
    else if !mfa_verified then
      GateDecision.redirectVerify
    else
      GateDecision.proceed
  else
    GateDecision.proceed

/-! ## User MFA state and operations (accounts/models.py, accounts/views.py,
dashboard/admin_views.py) -/

/-- The MFA-relevant fields of the `User` model. -/
structure UserMfa where
  mfa_secret : String
  mfa_enabled : Bool
  mfa_confirmed : Bool
  recovery_codes : List String
  deriving DecidableEq, Repr

/-- The input normalisation `code.strip().upper()` in
`User.verify_recovery_code`. -/
def normalizeCode (code : String) : String :=
  pyUpper (pyStrip code)

/-- `User.generate_recovery_codes`: the freshly drawn plaintext codes
(`secrets.token_hex(4).upper()` in the source, randomness modelled as the
input list) are stored as their one-way hashes.  `hashHex` abstracts
`hashlib.sha256(...).hexdigest()`. -/
def generate_recovery_codes (hashHex : String → String)
    (plainCodes : List String) : List String :=
  plainCodes.map hashHex

/-- `User.verify_recovery_code`: normalise, hash, test membership of the
stored list and on success remove the first occurrence of the hash
(Python `list.remove`).  Returns the success flag and the updated stored
list. -/
def verify_recovery_code (hashHex : String → String) (codes : List String)
    (code : String) : Bool × List String :=
  let hashed := hashHex (normalizeCode code)
  if hashed ∈ codes then (true, codes.erase hashed) else (false, codes)

/-- Result of one POST to `mfa_verify_view` with a well-formed form. -/
structure VerifyOutcome where
  valid : Bool
  used_recovery : Bool
  user : UserMfa
  session_mfa_verified : Bool
  deriving DecidableEq, Repr

/-- The verification step of `mfa_verify_view` (views.py lines 137-169):
the cleaned code is stripped; a code of exactly six digits is compared by
the TOTP engine (`totpVerify` abstracts `pyotp.TOTP(secret).verify` with
its one-step window), every other code is routed to recovery-code
consumption.  The session flag was necessarily unset on entry (the view
redirects away otherwise), and becomes set exactly when the check
succeeds. -/
def mfa_verify_post (totpVerify : String → String → Bool)
    (hashHex : String → String) (u : UserMfa) (rawCode : String) :
    VerifyOutcome :=
  let code := pyStrip rawCode
  if isSixDigits code then
    let ok := totpVerify u.mfa_secret code
    { valid := ok, used_recovery := false, user := u,
      session_mfa_verified := ok }
  else
    let r := verify_recovery_code hashHex u.recovery_codes code
    { valid := r.1, used_recovery := true,
      user := { u with recovery_codes := r.2 },
      session_mfa_verified := r.1 }

/-- The POST branch of `mfa_setup_view` (views.py lines 95-108): a secret is
generated if absent (`newSecret` models `pyotp.random_base32()`), and only a
TOTP code that verifies against that stored secret sets
`mfa_enabled`/`mfa_confirmed` and issues a fresh recovery-code batch.
Returns the updated user and whether the session `mfa_verified` flag was
set. -/
def mfa_setup_post (totpVerify : String → String → Bool)
    (hashHex : String → String) (newSecret : String)
    (freshCodes : List String) (code : String) (u : UserMfa) :
    UserMfa × Bool :=
  let secret := if u.mfa_secret = "" then newSecret else u.mfa_secret
  let u1 : UserMfa := { u with mfa_secret := secret }
  if totpVerify secret code then
    ({ u1 with
        mfa_enabled := true
        mfa_confirmed := true
        recovery_codes := generate_recovery_codes hashHex freshCodes }, true)
  else
    (u1, false)

/-- `user_reset_mfa_view` (admin_views.py lines 85-95): clears the secret,
both flags and all recovery codes.  (It also deletes the user's trusted
devices, modelled separately.) -/
def user_reset_mfa (u : UserMfa) : UserMfa :=
  { u with
      mfa_enabled := false
      mfa_confirmed := false
      mfa_secret := ""
      recovery_codes := [] }

/-- The operations of the program that touch a user's MFA state. -/
inductive MfaOp where
  | setupPost (newSecret : String) (freshCodes : List String) (code : String)
  | verifyPost (code : String)
  | adminResetMfa
  | regenRecovery (freshCodes : List String)
  deriving DecidableEq, Repr

/-- Effect of one operation on the user record. -/
def applyOp (totpVerify : String → String → Bool)
    (hashHex : String → String) : MfaOp → UserMfa → UserMfa
  | MfaOp.setupPost s f c, u => (mfa_setup_post totpVerify hashHex s f c u).1
  | MfaOp.verifyPost c, u => (mfa_verify_post totpVerify hashHex u c).user
  | MfaOp.adminResetMfa, u => user_reset_mfa u
  | MfaOp.regenRecovery f, u =>
      { u with recovery_codes := generate_recovery_codes hashHex f }

/-- A freshly created user: MFA disabled, unconfirmed, no secret, no codes
(the model defaults of `accounts/models.py`). -/
def initUser : UserMfa :=
  { mfa_secret := "", mfa_enabled := false, mfa_confirmed := false,
    recovery_codes := [] }

/-- Run a sequence of MFA operations from a given user state. -/
def runOps (totpVerify : String → String → Bool)
    (hashHex : String → String) (ops : List MfaOp) (u : UserMfa) : UserMfa :=
  ops.foldl (fun s op => applyOp totpVerify hashHex op s) u

/-! ## Trusted devices (accounts/models.py, accounts/views.py) -/

/-- A `TrustedDevice` record; `expires_at` is a timestamp. -/
structure TrustedDevice where
  user_id : String
  device_hash : String
  expires_at : Int
  deriving DecidableEq, Repr

/-- `TrustedDevice.is_valid`: `timezone.now() < self.expires_at`. -/
def trustedDeviceIsValid (now : Int) (d : TrustedDevice) : Bool :=
  decide (now < d.expires_at)

/-- The login-time lookup in `login_view` (views.py lines 40-49):
`TrustedDevice.objects.filter(user=..., device_hash=..., expires_at__gt=now)
.first()`. -/
def login_trusted_lookup (devices : List TrustedDevice) (uid dh : String)
    (now : Int) : Option TrustedDevice :=
  (devices.filter (fun d =>
    (d.user_id == uid) && (d.device_hash == dh) &&
      decide (now < d.expires_at))).head?

/-- The trusted-device branch of `login_view`: the session `mfa_verified`
flag (freshly false after `login`) is granted exactly when the user has
completed enrollment and an unexpired matching record exists.  The device
table is returned unchanged: the lookup is read-only. -/
def login_post (u : UserMfa) (devices : List TrustedDevice)
    (uid dh : String) (now : Int) : Bool × List TrustedDevice :=
  if u.mfa_enabled && u.mfa_confirmed then
    match login_trusted_lookup devices uid dh now with
    | some _ => (true, devices)
    | none => (false, devices)
  else
    (false, devices)

/-! ## Analytics query builder (dashboard/queries.py): data model -/

/-- Python `s.lower()` (ASCII portion), used for ILIKE matching. -/
def pyLower (s : String) : String :=
  String.mk (s.data.map Char.toLower)

/-- Containment of one character list in another, the semantics of the SQL
pattern match `x ILIKE '%needle%'` after case folding. -/
def charsContains (hay needle : List Char) : Bool :=
  match hay with
  | [] => needle.isEmpty
  | c :: t => needle.isPrefixOf (c :: t) || charsContains t needle

/-- Case-insensitive substring test: the semantics of
`col ILIKE %(search)s` with the parameter `f"%{search}%"`. -/
def ilike_contains (hay needle : String) : Bool :=
  charsContains (pyLower hay).data (pyLower needle).data

/-- Lexicographic comparison of character lists: the order used for the
ISO-formatted date strings bound to `transaction_date` comparisons. -/
def charListLe : List Char → List Char → Bool
  | [], _ => true
  | _ :: _, [] => false
  | a :: as, b :: bs =>
      if a < b then true else if b < a then false else charListLe as bs

/-- String comparison for date bounds (ISO `YYYY-MM-DD` strings compare
like the dates they denote). -/
def strLe (a b : String) : Bool :=
  charListLe a.data b.data

/-- One row of the analytics view `vw_superset_accounts_current`.  Monetary
amounts are modelled as integers (the claims under verification do not
depend on their scale). -/
structure AccountRow where
  account_id : String
  account_name : String
  institution_name : String
  type : String
  subtype : String
  mask : String
  current_balance : Int
  available_balance : Int
  credit_limit : Int
  utilization_pct : Int
  is_overdrawn : Bool
  balance_as_of : String
  deriving DecidableEq, Repr

/-- One row of the analytics view `vw_superset_transactions`. -/
structure TransactionRow where
  transaction_id : String
  transaction_date : String
  transaction_name : String
  merchant_name : String
  amount : Int
  amount_abs : Int
  pending : Bool
  account_name : String
  account_id : String
  institution_name : String
  payment_channel : String
  transaction_type : String
  category_id : String
  flow_direction : String
  iso_currency_code : String
  deriving DecidableEq, Repr

/-- One `ClientAccount` mapping row (clients/models.py). -/
structure ClientAccount where
  client_id : String
  account_id : String
  deriving DecidableEq, Repr

/-- `_get_account_ids_for_client`: `none` when no client filter applies,
otherwise the explicit list of mapped account identifiers (possibly
empty). -/
def get_account_ids_for_client (mapping : List ClientAccount)
    (client_id : Option String) : Option (List String) :=
  match client_id with
  | none => none
  | some cid =>
      some ((mapping.filter (fun ca => ca.client_id == cid)).map
        (fun ca => ca.account_id))

/-- Row-level semantics of `_account_filter_clause`: no clause when the
scope is `none`; otherwise the membership test
`account_id = ANY(%(account_ids)s)`, which over the empty list is false for
every row. -/
def account_filter_pred (ids : Option (List String)) (aid : String) : Bool :=
  match ids with
  | none => true
  | some l => decide (aid ∈ l)

/-- WHERE predicate of the two `get_summary_kpis` queries and of
`get_accounts_page` / `get_account_options` on the accounts view. -/
def account_matches (ids : Option (List String)) (search : String)
    (a : AccountRow) : Bool :=
  account_filter_pred ids a.account_id &&
    (if search = "" then true
     else ilike_contains a.account_name search ||
       ilike_contains a.institution_name search ||
       ilike_contains a.mask search)

/-- `get_summary_kpis`: (total_balance, total_available, total_pending),
each a `COALESCE(SUM(...), 0)` over the scoped rows; the pending total
additionally requires `t.pending = true`. -/
def get_summary_kpis (accounts : List AccountRow)
    (txns : List TransactionRow) (mapping : List ClientAccount)
    (client_id : Option String) : Int × Int × Int :=
  let ids := get_account_ids_for_client mapping client_id
  let arows := accounts.filter (fun a => account_filter_pred ids a.account_id)
  let trows := txns.filter (fun t =>
    t.pending && account_filter_pred ids t.account_id)
  ((arows.map (fun a => a.current_balance)).sum,
   (arows.map (fun a => a.available_balance)).sum,
   (trows.map (fun t => t.amount_abs)).sum)

/-- `ACCOUNTS_SORTABLE`, the sort-column allow-list of the accounts page. -/
def ACCOUNTS_SORTABLE : List String :=
  [ "account_name", "institution_name", "type", "subtype", "mask"
  , "current_balance", "available_balance", "credit_limit"
  , "utilization_pct", "balance_as_of" ]

/-- `TRANSACTIONS_SORTABLE`, the sort-column allow-list of the transactions
page. -/
def TRANSACTIONS_SORTABLE : List String :=
  [ "transaction_date", "transaction_name", "merchant_name", "amount"
  , "account_name", "institution_name", "payment_channel"
  , "transaction_type", "flow_direction", "pending" ]

/-- The ORDER BY fragment built by `get_accounts_page` (queries.py lines
109-116): the sort column is validated against the allow-list, the
direction against {asc, desc}, with fallbacks `account_name` and `asc`. -/
def accounts_sort_clause (sort order : String) : String :=
  let s := if sort ∈ ACCOUNTS_SORTABLE then sort else "account_name"
  let o := if order = "asc" ∨ order = "desc" then order else "asc"
  "a." ++ s ++ " " ++ o ++ " NULLS LAST"

/-- The ORDER BY fragment built by `get_transactions_page` (queries.py
lines 207-212), with fallbacks `transaction_date` and `desc`. -/
def transactions_sort_clause (sort order : String) : String :=
  let s := if sort ∈ TRANSACTIONS_SORTABLE then sort else "transaction_date"
  let o := if order = "asc" ∨ order = "desc" then order else "desc"
  "t." ++ s ++ " " ++ o ++ " NULLS LAST"

/-- Result dictionary of the paginated listing queries. -/
structure PageResult (α : Type) where
  rows : List α
  total : Nat
  page : Int
  page_size : Int
  total_pages : Int
  deriving Repr

/-- `get_accounts_page`: scoped, searched, counted and paginated with
`OFFSET (page-1)*page_size LIMIT page_size`.  The database-side row
ordering (ORDER BY) is presentation-only and abstracted; no verified claim
depends on it. -/
def get_accounts_page (accounts : List AccountRow)
    (mapping : List ClientAccount) (client_id : Option String)
    (search : String) (page : Int) (page_size : Int) :
    PageResult AccountRow :=
  let ids := get_account_ids_for_client mapping client_id
  let filtered := accounts.filter (account_matches ids search)
  let total := filtered.length
  let offset := (page - 1) * page_size
  { rows := (filtered.drop offset.toNat).take page_size.toNat
    total := total
    page := page
    page_size := page_size
    total_pages := max 1 (((total : Int) + page_size - 1) / page_size) }

/-- The intersection step at the top of `get_transactions_page` and
`get_transactions_for_export`: an explicit `account_id` filter is
intersected with the client scope and can only narrow it. -/
def effective_account_ids (mapping : List ClientAccount)
    (client_id account_id : Option String) : Option (List String) :=
  let ids := get_account_ids_for_client mapping client_id
  match account_id with
  | none => ids
  | some aid =>
      match ids with
      | some l => if aid ∈ l then some [aid] else some []
      | none => some [aid]

/-- WHERE predicate of the transactions listing and export queries:
account scope, optional date bounds, optional pending flag, optional
case-insensitive search on name/merchant. -/
def txn_matches (ids : Option (List String))
    (date_from date_to : Option String) (pending : Option Bool)
    (search : String) (t : TransactionRow) : Bool :=
  account_filter_pred ids t.account_id
  && (match date_from with
      | none => true
      | some d => strLe d t.transaction_date)
  && (match date_to with
      | none => true
      | some d => strLe t.transaction_date d)
  && (match pending with
      | none => true
      | some p => t.pending == p)
  && (if search = "" then true
      else ilike_contains t.transaction_name search ||
        ilike_contains t.merchant_name search)

/-- `get_transactions_page`. -/
def get_transactions_page (txns : List TransactionRow)
    (mapping : List ClientAccount) (client_id account_id : Option String)
    (date_from date_to : Option String) (pending : Option Bool)
    (search : String) (page : Int) (page_size : Int) :
    PageResult TransactionRow :=
  let ids := effective_account_ids mapping client_id account_id
  let filtered := txns.filter (txn_matches ids date_from date_to pending search)
  let total := filtered.length
  let offset := (page - 1) * page_size
  { rows := (filtered.drop offset.toNat).take page_size.toNat
    total := total
    page := page
    page_size := page_size
    total_pages := max 1 (((total : Int) + page_size - 1) / page_size) }

/-- `CSV_COLUMNS`: the fixed export column order. -/
def CSV_COLUMNS : List String :=
  [ "transaction_date", "transaction_name", "merchant_name", "amount"
  , "pending", "account_name", "institution_name", "payment_channel"
  , "transaction_type", "category_id", "flow_direction" ]

/-- The value a transaction row carries in a named view column, rendered as
the CSV writer renders it. -/
def txn_field (t : TransactionRow) (col : String) : String :=
  if col = "transaction_date" then t.transaction_date
  else if col = "transaction_name" then t.transaction_name
  else if col = "merchant_name" then t.merchant_name
  else if col = "amount" then toString t.amount
  else if col = "pending" then toString t.pending
  else if col = "account_name" then t.account_name
  else if col = "institution_name" then t.institution_name
  else if col = "payment_channel" then t.payment_channel
  else if col = "transaction_type" then t.transaction_type
  else if col = "category_id" then t.category_id
  else if col = "flow_direction" then t.flow_direction
  else ""

/-- Projection of a row in the fixed CSV column order, mirroring
`", ".join(f"t.{c}" for c in CSV_COLUMNS)` in the export SELECT. -/
def csv_project (t : TransactionRow) : List String :=
  CSV_COLUMNS.map (txn_field t)

/-- `get_transactions_for_export`: returns `(rows, total_count, exceeded)`;
when the matched count exceeds `max_rows` no data rows are fetched at all,
otherwise the data query (with its `LIMIT %(export_limit)s`) is run. -/
def get_transactions_for_export (txns : List TransactionRow)
    (mapping : List ClientAccount) (client_id account_id : Option String)
    (date_from date_to : Option String) (pending : Option Bool)
    (search : String) (max_rows : Nat) :
    List (List String) × Nat × Bool :=
  let ids := effective_account_ids mapping client_id account_id
  let filtered := txns.filter (txn_matches ids date_from date_to pending search)
  let total := filtered.length
  if total > max_rows then ([], total, true)
  else ((filtered.take max_rows).map csv_project, total, false)

/-- `get_account_options`: scoped (account_id, label) pairs for the filter
dropdown. -/
def get_account_options (accounts : List AccountRow)
    (mapping : List ClientAccount) (client_id : Option String) :
    List (String × String) :=
  let ids := get_account_ids_for_client mapping client_id
  (accounts.filter (fun a => account_filter_pred ids a.account_id)).map
    (fun a => (a.account_id, a.account_name ++ " (" ++ a.mask ++ ")"))

/-! ## Dashboard views (dashboard/views.py) -/

/-- Response of `export_csv_view`. -/
inductive ExportResponse where
  | forbiddenMobile : ExportResponse
  | denied (total : Nat) : ExportResponse
  | csvFile (header : List String) (dataRows : List (List String)) :
      ExportResponse
  deriving DecidableEq, Repr

/-- `export_csv_view` (views.py lines 161-206): mobile clients are refused;
an exceeded row cap yields a 400 response with no data rows plus a
`csv_export_denied` audit event; otherwise a CSV whose header is
`CSV_COLUMNS` followed by the fetched rows.  The second component lists the
audit events recorded, in order. -/
def export_csv_view (is_mobile : Bool) (txns : List TransactionRow)
    (mapping : List ClientAccount) (client_id account_id : Option String)
    (date_from date_to : Option String) (pending : Option Bool)
    (search : String) (max_rows : Nat) : ExportResponse × List String :=
  if is_mobile then
    (ExportResponse.forbiddenMobile, [])
  else
    let r := get_transactions_for_export txns mapping client_id account_id
      date_from date_to pending search max_rows
    if r.2.2 then
      (ExportResponse.denied r.2.1, ["csv_export_denied"])
    else
      (ExportResponse.csvFile CSV_COLUMNS r.1,
        ["csv_export_initiated", "csv_export_completed"])

/-- Parsing of a decimal digit string to a number. -/
def parseDigits (l : List Char) : Option Nat :=
  if l.isEmpty then none
  else if l.all (fun c => c.isDigit) then
    some (l.foldl (fun acc c => acc * 10 + (c.toNat - 48)) 0)
  else none

/-- Python `int(value)` on a string (or `None`): optional surrounding
whitespace, an optional sign, then decimal digits; anything else raises
and, in `_parse_int`, falls back to the default. -/
def pyInt? (s : String) : Option Int :=
  match (pyStrip s).data with
  | '-' :: rest => (parseDigits rest).map (fun n => -(n : Int))
  | '+' :: rest => (parseDigits rest).map (fun n => (n : Int))
  | l => (parseDigits l).map (fun n => (n : Int))

/-- `_parse_int` (views.py lines 17-25): parse, clamp below by `minimum`,
clamp above by `maximum` only when a truthy maximum was supplied; on a
missing or non-integer value return `default` unchanged. -/
def parse_int (value : Option String) (default : Int) (minimum : Int)
    (maximum : Option Int) : Int :=
  match value.bind pyInt? with
  | none => default
  | some n =>
      let v := max n minimum
      match maximum with
      | none => v
      | some m => if m ≠ 0 then min v m else v

/-- `settings.DEFAULT_PAGE_SIZE`. -/
def DEFAULT_PAGE_SIZE : Int := 25

/-- `settings.MAX_PAGE_SIZE`. -/
def MAX_PAGE_SIZE : Int := 100

/-- The pagination parameters as `summary_view` (views.py lines 50-52) and
`transactions_view` (lines 107-109) compute them: page defaults to 1 with
minimum 1 and no maximum; page_size defaults to `DEFAULT_PAGE_SIZE` with
minimum 1 and maximum `MAX_PAGE_SIZE`. -/
def view_page_params (pageRaw pageSizeRaw : Option String) : Int × Int :=
  (parse_int pageRaw 1 1 none,
   parse_int pageSizeRaw DEFAULT_PAGE_SIZE 1 (some MAX_PAGE_SIZE))

end Soundcheck

namespace Soundcheck

/-! ## Helper lemmas -/

/-- The head of a list, when it exists, is a member. -/
theorem head?_some_mem {α : Type} {l : List α} {a : α}
    (h : l.head? = some a) : a ∈ l := by
  cases l with
  | nil => simp at h
  | cons b t =>
      simp only [List.head?] at h
      injection h with h
      simp [h]

/-- A filter by an everywhere-false predicate returns no rows. -/
theorem filter_pred_false {α : Type} {p : α → Bool} (h : ∀ a, p a = false)
    (l : List α) : l.filter p = [] := by
  induction l with
  | nil => rfl
  | cons a t ih => simp [List.filter_cons, h a, ih]

/-- When the client scope resolves to the empty list, intersecting with any
explicit account filter still yields the empty list. -/
theorem effective_ids_empty (mapping : List ClientAccount) (cid : String)
    (account_id : Option String)
    (h : get_account_ids_for_client mapping (some cid) = some []) :
    effective_account_ids mapping (some cid) account_id = some [] := by
  cases account_id with
  | none => simpa [effective_account_ids] using h
  | some aid => simp [effective_account_ids, h]

/-- The transactions WHERE predicate rejects every row under the empty
scope. -/
theorem txn_matches_empty_scope (date_from date_to : Option String)
    (pending : Option Bool) (search : String) (t : TransactionRow) :
    txn_matches (some []) date_from date_to pending search t = false := by
  simp [txn_matches, account_filter_pred]

/-- One MFA operation preserves the invariant
`mfa_confirmed → mfa_enabled`. -/
theorem applyOp_preserves_invariant (tv : String → String → Bool)
    (hh : String → String) (op : MfaOp) (u : UserMfa)
    (h : u.mfa_confirmed = true → u.mfa_enabled = true) :
    (applyOp tv hh op u).mfa_confirmed = true →
    (applyOp tv hh op u).mfa_enabled = true := by
  cases op with
  | setupPost s f c =>
      simp only [applyOp, mfa_setup_post]
      split
      · split
        · intro _; rfl
        · exact h
      · split
        · intro _; rfl
        · exact h
  | verifyPost c =>
      simp only [applyOp, mfa_verify_post]
      split
      · exact h
      · exact h
  | adminResetMfa =>
      simp [applyOp, user_reset_mfa]
  | regenRecovery f =>
      exact h

/-- The invariant `mfa_confirmed → mfa_enabled` is inductive along any run
of MFA operations. -/
theorem runOps_preserves_invariant (tv : String → String → Bool)
    (hh : String → String) (ops : List MfaOp) (u : UserMfa)
    (h : u.mfa_confirmed = true → u.mfa_enabled = true) :
    (runOps tv hh ops u).mfa_confirmed = true →
    (runOps tv hh ops u).mfa_enabled = true := by
  induction ops generalizing u with
  | nil => simpa [runOps] using h
  | cons op t ih =>
      have hstep := applyOp_preserves_invariant tv hh op u h
      simpa [runOps, List.foldl_cons] using
        ih (applyOp tv hh op u) hstep

/-! ## Claim theorems -/

/-- Claim C1: for every authenticated request the MFA gate is a pure decision
on (path, mfa_enabled, mfa_verified): an exempt-prefixed path proceeds
regardless of MFA state; otherwise `mfa_enabled = false` redirects to
enrollment, then an unset session `mfa_verified` redirects to verification,
and otherwise the request proceeds. -/
theorem mfa_gate_pure_decision (path : String) (e v : Bool) :
    (MFA_EXEMPT_PATHS.any (fun p => pyStartswith path p) = true →
        mfaEnforcement true path e v = GateDecision.proceed)
  ∧ (MFA_EXEMPT_PATHS.any (fun p => pyStartswith path p) = false →
        (e = false → mfaEnforcement true path e v = GateDecision.redirectSetup)
      ∧ (e = true → v = false →
            mfaEnforcement true path e v = GateDecision.redirectVerify)
      ∧ (e = true → v = true →
            mfaEnforcement true path e v = GateDecision.proceed)) := by
  constructor
  · intro hex
    simp [mfaEnforcement, hex]
  · intro hex
    refine ⟨fun he => ?_, fun he hv => ?_, fun he hv => ?_⟩
    · simp [mfaEnforcement, hex, he]
    · simp [mfaEnforcement, hex, he, hv]
    · simp [mfaEnforcement, hex, he, hv]

/-- Concrete instantiation of the C1 theorem: a dashboard path with MFA not
yet enabled is redirected to setup, and the login path always proceeds. -/
theorem mfa_gate_pure_decision_witness :
    mfaEnforcement true "/dashboard/" false false = GateDecision.redirectSetup ∧
    mfaEnforcement true "/auth/login/" false false = GateDecision.proceed :=
  ⟨((mfa_gate_pure_decision "/dashboard/" false false).2 (by decide)).1 rfl,
   (mfa_gate_pure_decision "/auth/login/" false false).1 (by decide)⟩

/-- Claim C2: along every run of the program's MFA operations from a fresh
user, `mfa_confirmed = true` implies `mfa_enabled = true`; and the only
single step able to turn `mfa_confirmed` from false to true is an
enrollment POST whose code passes TOTP verification against the secret
stored on the user at the moment of confirmation. -/
theorem mfa_confirmed_only_by_totp (tv : String → String → Bool)
    (hh : String → String) :
    (∀ ops : List MfaOp,
        (runOps tv hh ops initUser).mfa_confirmed = true →
        (runOps tv hh ops initUser).mfa_enabled = true)
  ∧ (∀ (op : MfaOp) (u : UserMfa),
        u.mfa_confirmed = false →
        (applyOp tv hh op u).mfa_confirmed = true →
        ∃ s f c, op = MfaOp.setupPost s f c ∧
          tv (applyOp tv hh op u).mfa_secret c = true) := by
  constructor
  · intro ops
    exact runOps_preserves_invariant tv hh ops initUser (by simp [initUser])
  · intro op u hfalse htrue
    cases op with
    | setupPost s f c =>
        refine ⟨s, f, c, rfl, ?_⟩
        by_cases hsec : u.mfa_secret = ""
        · simp only [applyOp, mfa_setup_post, hsec, if_true] at htrue ⊢
          by_cases hok : tv s c = true
          · simp [hok]
          · simp [hok, hfalse] at htrue
        · simp only [applyOp, mfa_setup_post, hsec, if_false] at htrue ⊢
          by_cases hok : tv u.mfa_secret c = true
          · simp [hok]
          · simp [hok, hfalse] at htrue
    | verifyPost c =>
        simp only [applyOp, mfa_verify_post] at htrue
        split at htrue <;> simp [hfalse] at htrue
    | adminResetMfa =>
        simp [applyOp, user_reset_mfa] at htrue
    | regenRecovery f =>
        simp [applyOp, hfalse] at htrue

/-- Concrete instantiation of the C2 theorem at a one-step run that
completes enrollment. -/
theorem mfa_confirmed_only_by_totp_witness :
    (runOps (fun _ _ => true) (fun s => s)
      [MfaOp.setupPost "SECRET" ["C1", "C2"] "123456"] initUser).mfa_enabled
      = true :=
  (mfa_confirmed_only_by_totp (fun _ _ => true) (fun s => s)).1
    [MfaOp.setupPost "SECRET" ["C1", "C2"] "123456"] (by decide)

/-- Claim C5 counterexample: the claim's one-time-use consequence is false
as stated over the code.  The stored codes live in a JSON list and Python
`list.remove` deletes a single occurrence, so in a state where the hash of
the consumed code is stored twice (reachable, since
`generate_recovery_codes` hashes ten independently drawn random codes) a
second consumption of the same code succeeds again.  `fun s => s` stands
for the abstract hash; the Python state is two equal sha256 digests. -/
theorem recovery_code_reuse_counterexample :
    (verify_recovery_code (fun s => s) ["A", "A"] "a").1 = true ∧
    (verify_recovery_code (fun s => s)
        (verify_recovery_code (fun s => s) ["A", "A"] "a").2 "a").1 = true := by
  decide

/-- Claim C5 (amended): consuming a recovery code normalises the input
(strip then uppercase), hashes it, succeeds iff the hash occurs in the
stored list, and on success removes one occurrence of exactly that hash;
when the stored list holds the hash at most once — as for any batch of
distinct generated codes — an immediately repeated consumption of the same
code fails. -/
theorem recovery_code_one_time_use (hh : String → String)
    (codes : List String) (code : String) :
    ((verify_recovery_code hh codes code).1 = true ↔
        hh (normalizeCode code) ∈ codes)
  ∧ ((verify_recovery_code hh codes code).1 = true →
        (verify_recovery_code hh codes code).2 =
          codes.erase (hh (normalizeCode code)))
  ∧ (codes.count (hh (normalizeCode code)) ≤ 1 →
      (verify_recovery_code hh codes code).1 = true →
      (verify_recovery_code hh
          (verify_recovery_code hh codes code).2 code).1 = false) := by
  by_cases hmem : hh (normalizeCode code) ∈ codes
  · refine ⟨by simp [verify_recovery_code, hmem], ?_, ?_⟩
    · intro _
      simp [verify_recovery_code, hmem]
    · intro hcount _
      have hzero : (codes.erase (hh (normalizeCode code))).count
          (hh (normalizeCode code)) = 0 := by
        rw [List.count_erase_self]
        have hpos := List.count_pos_iff.mpr hmem
        omega
      have hnot : hh (normalizeCode code) ∉
          codes.erase (hh (normalizeCode code)) :=
        List.count_eq_zero.mp hzero
      simp [verify_recovery_code, hmem, hnot]
  · refine ⟨by simp [verify_recovery_code, hmem], ?_, ?_⟩
    · intro hsucc
      simp [verify_recovery_code, hmem] at hsucc
    · intro _ hsucc
      simp [verify_recovery_code, hmem] at hsucc

/-- Concrete instantiation of the amended C5 theorem: a code stored once is
consumed, and a second consumption fails. -/
theorem recovery_code_one_time_use_witness :
    (verify_recovery_code (fun s => s)
        (verify_recovery_code (fun s => s) ["A"] "a").2 "a").1 = false :=
  (recovery_code_one_time_use (fun s => s) ["A"] "a").2.2 (by decide) (by decide)

/-- Claim C7: a submitted verification code is compared as TOTP iff (after
the form's strip) it consists of exactly six decimal digits; every other
input never reaches TOTP comparison — the outcome is independent of the
TOTP engine — and is routed to recovery-code consumption instead. -/
theorem totp_code_routing (hh : String → String) (u : UserMfa)
    (rawCode : String) :
    (isSixDigits (pyStrip rawCode) = true →
        ∀ tv : String → String → Bool,
          (mfa_verify_post tv hh u rawCode).used_recovery = false ∧
          (mfa_verify_post tv hh u rawCode).valid =
            tv u.mfa_secret (pyStrip rawCode))
  ∧ (isSixDigits (pyStrip rawCode) = false →
        ∀ tv tw : String → String → Bool,
          mfa_verify_post tv hh u rawCode = mfa_verify_post tw hh u rawCode ∧
          (mfa_verify_post tv hh u rawCode).used_recovery = true ∧
          (mfa_verify_post tv hh u rawCode).valid =
            (verify_recovery_code hh u.recovery_codes (pyStrip rawCode)).1) := by
  constructor
  · intro hsix tv
    simp [mfa_verify_post, hsix]
  · intro hsix tv tw
    simp [mfa_verify_post, hsix]

/-- Concrete instantiation of the C7 theorem: a six-digit code is routed to
TOTP comparison, never to the recovery path. -/
theorem totp_code_routing_witness :
    (mfa_verify_post (fun _ _ => true) (fun s => s) initUser
        "123456").used_recovery = false :=
  ((totp_code_routing (fun s => s) initUser "123456").1 (by decide)
    (fun _ _ => true)).1

/-- Claim C6: a trusted-device record is valid iff `now` is strictly before
its expiry; the login-time grant of the session flag requires a matching
record with expiry strictly in the future, so an expired record is never
selected and never grants bypass; and the lookup leaves the device table
unchanged (it never refreshes an expiry). -/
theorem trusted_device_expired_never_grants (u : UserMfa)
    (devices : List TrustedDevice) (uid dh : String) (now : Int) :
    (∀ d : TrustedDevice, trustedDeviceIsValid now d = true ↔ now < d.expires_at)
  ∧ ((login_post u devices uid dh now).1 = true →
        ∃ d, d ∈ devices ∧ d.user_id = uid ∧ d.device_hash = dh ∧
          now < d.expires_at)
  ∧ (∀ d, d ∈ devices → d.expires_at ≤ now →
        login_trusted_lookup devices uid dh now ≠ some d)
  ∧ (login_post u devices uid dh now).2 = devices := by
  refine ⟨?_, ?_, ?_, ?_⟩
  · intro d
    simp [trustedDeviceIsValid]
  · intro hflag
    simp only [login_post] at hflag
    split at hflag
    · cases hlook : login_trusted_lookup devices uid dh now with
      | none => rw [hlook] at hflag; simp at hflag
      | some d =>
          have hmemf : d ∈ devices.filter (fun d =>
              (d.user_id == uid) && (d.device_hash == dh) &&
                decide (now < d.expires_at)) :=
            head?_some_mem hlook
          have hmem := (List.mem_filter.mp hmemf).1
          have hpd := (List.mem_filter.mp hmemf).2
          simp only [Bool.and_eq_true, beq_iff_eq, decide_eq_true_eq] at hpd
          exact ⟨d, hmem, hpd.1.1, hpd.1.2, hpd.2⟩
    · simp at hflag
  · intro d hmem hexp hlook
    have hmemf : d ∈ devices.filter (fun d =>
        (d.user_id == uid) && (d.device_hash == dh) &&
          decide (now < d.expires_at)) :=
      head?_some_mem hlook
    have hp := (List.mem_filter.mp hmemf).2
    simp at hp
    omega
  · simp only [login_post]
    split
    · split <;> rfl
    · rfl

/-- Concrete instantiation of the C6 theorem: with a single expired record,
the lookup never returns it. -/
theorem trusted_device_expired_never_grants_witness :
    login_trusted_lookup [⟨"u1", "h1", 5⟩] "u1" "h1" 9 ≠
      some (⟨"u1", "h1", 5⟩ : TrustedDevice) :=
  (trusted_device_expired_never_grants initUser [⟨"u1", "h1", 5⟩]
    "u1" "h1" 9).2.2.1 ⟨"u1", "h1", 5⟩ (by simp) (by decide)

/-- Claim C3: when the client scope resolves to an explicit empty account
list, every query of the builder — summary KPIs, accounts page,
transactions page, CSV export, account options — applies the always-false
membership filter and returns zero rows and zero totals, never unscoped
results. -/
theorem empty_scope_returns_nothing (accounts : List AccountRow)
    (txns : List TransactionRow) (mapping : List ClientAccount) (cid : String)
    (search : String) (account_id date_from date_to : Option String)
    (pending : Option Bool) (page page_size : Int) (max_rows : Nat)
    (h : get_account_ids_for_client mapping (some cid) = some []) :
    get_summary_kpis accounts txns mapping (some cid) = (0, 0, 0)
  ∧ (get_accounts_page accounts mapping (some cid) search page
      page_size).rows = []
  ∧ (get_accounts_page accounts mapping (some cid) search page
      page_size).total = 0
  ∧ (get_transactions_page txns mapping (some cid) account_id date_from
      date_to pending search page page_size).rows = []
  ∧ (get_transactions_page txns mapping (some cid) account_id date_from
      date_to pending search page page_size).total = 0
  ∧ get_transactions_for_export txns mapping (some cid) account_id date_from
      date_to pending search max_rows = ([], 0, false)
  ∧ get_account_options accounts mapping (some cid) = [] := by
  have heff := effective_ids_empty mapping cid account_id h
  have hafilter :
      accounts.filter (fun a =>
        account_filter_pred (some []) a.account_id) = [] :=
    filter_pred_false (fun a => by simp [account_filter_pred]) accounts
  have hmfilter :
      accounts.filter (account_matches (some []) search) = [] :=
    filter_pred_false
      (fun a => by simp [account_matches, account_filter_pred]) accounts
  have htfilter :
      txns.filter (txn_matches (some []) date_from date_to pending search)
        = [] :=
    filter_pred_false
      (fun t => txn_matches_empty_scope date_from date_to pending search t)
      txns
  have htpfilter :
      txns.filter (fun t =>
        t.pending && account_filter_pred (some []) t.account_id) = [] :=
    filter_pred_false (fun t => by simp [account_filter_pred]) txns
  refine ⟨?_, ?_, ?_, ?_, ?_, ?_, ?_⟩
  · simp [get_summary_kpis, h, hafilter, htpfilter]
  · simp [get_accounts_page, h, hmfilter]
  · simp [get_accounts_page, h, hmfilter]
  · simp [get_transactions_page, heff, htfilter]
  · simp [get_transactions_page, heff, htfilter]
  · simp [get_transactions_for_export, heff, htfilter]
  · simp [get_account_options, h, hafilter]

/-- Concrete instantiation of the C3 theorem: a client with no mapped
accounts sees zero KPI totals even though the analytics view holds a row. -/
theorem empty_scope_returns_nothing_witness :
    get_summary_kpis
      [⟨"a1", "Checking", "Bank", "depository", "checking", "1234",
          500, 450, 0, 0, false, "2024-01-31"⟩]
      [⟨"t1", "2024-01-15", "Coffee", "Cafe", -4, 4, true, "Checking",
          "a1", "Bank", "in store", "place", "cat", "outflow", "USD"⟩]
      [] (some "c1") = (0, 0, 0) :=
  (empty_scope_returns_nothing
    [⟨"a1", "Checking", "Bank", "depository", "checking", "1234",
        500, 450, 0, 0, false, "2024-01-31"⟩]
    [⟨"t1", "2024-01-15", "Coffee", "Cafe", -4, 4, true, "Checking",
        "a1", "Bank", "in store", "place", "cat", "outflow", "USD"⟩]
    [] "c1" "" none none none none 1 25 100 rfl).1

/-- Claim C4: the export returns the matched count; when it exceeds the
configured maximum the row list is empty with the exceeded flag set and the
view produces no data rows and records a `csv_export_denied` event; when it
is at most the maximum the export returns exactly the matched rows
projected in the fixed `CSV_COLUMNS` order and the view streams them under
that header. -/
theorem csv_export_row_cap (txns : List TransactionRow)
    (mapping : List ClientAccount) (client_id account_id : Option String)
    (date_from date_to : Option String) (pending : Option Bool)
    (search : String) (max_rows : Nat) :
    (get_transactions_for_export txns mapping client_id account_id date_from
        date_to pending search max_rows).2.1 =
      (txns.filter (txn_matches (effective_account_ids mapping client_id
        account_id) date_from date_to pending search)).length
  ∧ ((txns.filter (txn_matches (effective_account_ids mapping client_id
        account_id) date_from date_to pending search)).length > max_rows →
      get_transactions_for_export txns mapping client_id account_id date_from
          date_to pending search max_rows =
        ([], (txns.filter (txn_matches (effective_account_ids mapping
          client_id account_id) date_from date_to pending search)).length,
          true)
      ∧ export_csv_view false txns mapping client_id account_id date_from
          date_to pending search max_rows =
        (ExportResponse.denied (txns.filter (txn_matches
            (effective_account_ids mapping client_id account_id) date_from
            date_to pending search)).length,
          ["csv_export_denied"]))
  ∧ ((txns.filter (txn_matches (effective_account_ids mapping client_id
        account_id) date_from date_to pending search)).length ≤ max_rows →
      get_transactions_for_export txns mapping client_id account_id date_from
          date_to pending search max_rows =
        ((txns.filter (txn_matches (effective_account_ids mapping client_id
            account_id) date_from date_to pending search)).map csv_project,
          (txns.filter (txn_matches (effective_account_ids mapping client_id
            account_id) date_from date_to pending search)).length,
          false)
      ∧ export_csv_view false txns mapping client_id account_id date_from
          date_to pending search max_rows =
        (ExportResponse.csvFile CSV_COLUMNS
            ((txns.filter (txn_matches (effective_account_ids mapping
              client_id account_id) date_from date_to pending
              search)).map csv_project),
          ["csv_export_initiated", "csv_export_completed"])) := by
  refine ⟨?_, fun hgt => ?_, fun hle => ?_⟩
  · simp only [get_transactions_for_export]
    split <;> rfl
  · have hexp : get_transactions_for_export txns mapping client_id account_id
        date_from date_to pending search max_rows =
        ([], (txns.filter (txn_matches (effective_account_ids mapping
          client_id account_id) date_from date_to pending search)).length,
          true) := by
      simp only [get_transactions_for_export]
      rw [if_pos hgt]
    exact ⟨hexp, by simp [export_csv_view, hexp]⟩
  · have htake := List.take_of_length_le hle
    have hexp : get_transactions_for_export txns mapping client_id account_id
        date_from date_to pending search max_rows =
        ((txns.filter (txn_matches (effective_account_ids mapping client_id
            account_id) date_from date_to pending search)).map csv_project,
          (txns.filter (txn_matches (effective_account_ids mapping client_id
            account_id) date_from date_to pending search)).length,
          false) := by
      simp only [get_transactions_for_export]
      rw [if_neg (by omega), htake]
    exact ⟨hexp, by simp [export_csv_view, hexp]⟩

/-- Concrete instantiation of the C4 theorem: one matched pending row, cap
zero, so the export is denied with the count and no data rows. -/
theorem csv_export_row_cap_witness :
    export_csv_view false
      [⟨"t1", "2024-01-15", "Coffee", "Cafe", -4, 4, true, "Checking",
          "a1", "Bank", "in store", "place", "cat", "outflow", "USD"⟩]
      [] none none none none none "" 0 =
      (ExportResponse.denied 1, ["csv_export_denied"]) :=
  ((csv_export_row_cap
    [⟨"t1", "2024-01-15", "Coffee", "Cafe", -4, 4, true, "Checking",
        "a1", "Bank", "in store", "place", "cat", "outflow", "USD"⟩]
    [] none none none none none "" 0).2.1 (by decide)).2

/-- Claim C10: supplying an explicit `account_id` outside the client's
permitted list makes the effective account list empty, so the transactions
listing and the CSV export return zero rows; in general the explicit
account filter can only narrow the client scope, never admit an account the
scope excludes. -/
theorem account_filter_only_narrows (txns : List TransactionRow)
    (mapping : List ClientAccount) (cid aid : String) (l : List String)
    (date_from date_to : Option String) (pending : Option Bool)
    (search : String) (page page_size : Int) (max_rows : Nat)
    (hscope : get_account_ids_for_client mapping (some cid) = some l)
    (hnot : aid ∉ l) :
    effective_account_ids mapping (some cid) (some aid) = some []
  ∧ (get_transactions_page txns mapping (some cid) (some aid) date_from
      date_to pending search page page_size).rows = []
  ∧ (get_transactions_page txns mapping (some cid) (some aid) date_from
      date_to pending search page page_size).total = 0
  ∧ get_transactions_for_export txns mapping (some cid) (some aid) date_from
      date_to pending search max_rows = ([], 0, false)
  ∧ (∀ (client_id account_id : Option String) (x : String),
      account_filter_pred (effective_account_ids mapping client_id
        account_id) x = true →
      account_filter_pred (get_account_ids_for_client mapping client_id) x
        = true) := by
  have heff : effective_account_ids mapping (some cid) (some aid)
      = some [] := by
    simp [effective_account_ids, hscope, hnot]
  have htfilter :
      txns.filter (txn_matches (some []) date_from date_to pending search)
        = [] :=
    filter_pred_false
      (fun t => txn_matches_empty_scope date_from date_to pending search t)
      txns
  refine ⟨heff, ?_, ?_, ?_, ?_⟩
  · simp [get_transactions_page, heff, htfilter]
  · simp [get_transactions_page, heff, htfilter]
  · simp [get_transactions_for_export, heff, htfilter]
  · intro client_id account_id x hx
    cases account_id with
    | none => simpa [effective_account_ids] using hx
    | some a =>
        cases hids : get_account_ids_for_client mapping client_id with
        | none => simp [account_filter_pred]
        | some ll =>
            simp only [effective_account_ids, hids] at hx
            by_cases hmem : a ∈ ll
            · rw [if_pos hmem] at hx
              simp only [account_filter_pred, decide_eq_true_eq,
                List.mem_singleton] at hx
              simp [account_filter_pred, hx, hmem]
            · rw [if_neg hmem] at hx
              simp [account_filter_pred] at hx

/-- Concrete instantiation of the C10 theorem: the client is mapped to
account a1 only, the request asks for a2, and the export yields nothing. -/
theorem account_filter_only_narrows_witness :
    get_transactions_for_export
      [⟨"t1", "2024-01-15", "Coffee", "Cafe", -4, 4, true, "Checking",
          "a2", "Bank", "in store", "place", "cat", "outflow", "USD"⟩]
      [⟨"c1", "a1"⟩] (some "c1") (some "a2") none none none "" 100 =
      ([], 0, false) :=
  (account_filter_only_narrows
    [⟨"t1", "2024-01-15", "Coffee", "Cafe", -4, 4, true, "Checking",
        "a2", "Bank", "in store", "place", "cat", "outflow", "USD"⟩]
    [⟨"c1", "a1"⟩] "c1" "a2" ["a1"] none none none "" 1 25 100
    (by decide) (by decide)).2.2.2.1

/-- Claim C8: a sort column outside the allow-list falls back to the
documented default column, a direction outside {asc, desc} falls back to
the default direction, and the ORDER BY fragment is always assembled from
an allow-listed column and a valid direction — an unrecognized input can
never inject anything else into the query text. -/
theorem sort_order_allowlist_fallback (sort order : String) :
    (sort ∉ ACCOUNTS_SORTABLE →
        accounts_sort_clause sort order =
          accounts_sort_clause "account_name" order)
  ∧ (order ≠ "asc" ∧ order ≠ "desc" →
        accounts_sort_clause sort order = accounts_sort_clause sort "asc")
  ∧ (sort ∉ TRANSACTIONS_SORTABLE →
        transactions_sort_clause sort order =
          transactions_sort_clause "transaction_date" order)
  ∧ (order ≠ "asc" ∧ order ≠ "desc" →
        transactions_sort_clause sort order =
          transactions_sort_clause sort "desc")
  ∧ (∃ s o, s ∈ ACCOUNTS_SORTABLE ∧ (o = "asc" ∨ o = "desc") ∧
        accounts_sort_clause sort order =
          "a." ++ s ++ " " ++ o ++ " NULLS LAST")
  ∧ (∃ s o, s ∈ TRANSACTIONS_SORTABLE ∧ (o = "asc" ∨ o = "desc") ∧
        transactions_sort_clause sort order =
          "t." ++ s ++ " " ++ o ++ " NULLS LAST") := by
  have hacc : "account_name" ∈ ACCOUNTS_SORTABLE := by decide
  have htd : "transaction_date" ∈ TRANSACTIONS_SORTABLE := by decide
  refine ⟨fun hs => ?_, fun ho => ?_, fun hs => ?_, fun ho => ?_, ?_, ?_⟩
  · simp [accounts_sort_clause, hs, hacc]
  · have hne : ¬(order = "asc" ∨ order = "desc") := by
      rintro (h | h) <;> [exact ho.1 h; exact ho.2 h]
    simp [accounts_sort_clause, hne]
  · simp [transactions_sort_clause, hs, htd]
  · have hne : ¬(order = "asc" ∨ order = "desc") := by
      rintro (h | h) <;> [exact ho.1 h; exact ho.2 h]
    simp [transactions_sort_clause, hne]
  · by_cases hs : sort ∈ ACCOUNTS_SORTABLE <;>
      by_cases ho : order = "asc" ∨ order = "desc"
    · exact ⟨sort, order, hs, ho, by simp [accounts_sort_clause, hs, ho]⟩
    · exact ⟨sort, "asc", hs, Or.inl rfl,
        by simp [accounts_sort_clause, hs, ho]⟩
    · exact ⟨"account_name", order, hacc, ho,
        by simp [accounts_sort_clause, hs, ho]⟩
    · exact ⟨"account_name", "asc", hacc, Or.inl rfl,
        by simp [accounts_sort_clause, hs, ho]⟩
  · by_cases hs : sort ∈ TRANSACTIONS_SORTABLE <;>
      by_cases ho : order = "asc" ∨ order = "desc"
    · exact ⟨sort, order, hs, ho, by simp [transactions_sort_clause, hs, ho]⟩
    · exact ⟨sort, "desc", hs, Or.inr rfl,
        by simp [transactions_sort_clause, hs, ho]⟩
    · exact ⟨"transaction_date", order, htd, ho,
        by simp [transactions_sort_clause, hs, ho]⟩
    · exact ⟨"transaction_date", "desc", htd, Or.inr rfl,
        by simp [transactions_sort_clause, hs, ho]⟩

/-- Concrete instantiation of the C8 theorem: an injected sort expression
falls back to the default columns for both queries. -/
theorem sort_order_allowlist_fallback_witness :
    accounts_sort_clause "1; DROP TABLE users" "asc" =
      accounts_sort_clause "account_name" "asc" ∧
    transactions_sort_clause "1; DROP TABLE users" "asc" =
      transactions_sort_clause "transaction_date" "asc" :=
  ⟨(sort_order_allowlist_fallback "1; DROP TABLE users" "asc").1 (by decide),
   (sort_order_allowlist_fallback "1; DROP TABLE users" "asc").2.2.1
     (by decide)⟩

/-- Claim C9 counterexample: the claim says page and page_size are both
clamped to `[1, max]`, but `summary_view`/`transactions_view` call
`_parse_int` for `page` without any maximum, so a page of 101 passes
through unclamped while the same raw value for page_size is capped at
`MAX_PAGE_SIZE = 100`. -/
theorem page_not_clamped_above :
    view_page_params (some "101") (some "101") = (101, 100) ∧
    (101 : Int) > MAX_PAGE_SIZE := by
  decide

/-- Claim C9 (amended): the query offset is `(page - 1) * page_size`; the
page number is clamped below to 1 but has no upper bound, page_size is
clamped to `[1, MAX_PAGE_SIZE]`, and a missing or non-integer raw value
falls back to the default (1, resp. `DEFAULT_PAGE_SIZE`). -/
theorem pagination_offset_and_clamping (pageRaw pageSizeRaw : Option String)
    (accounts : List AccountRow) (mapping : List ClientAccount)
    (client_id : Option String) (search : String) :
    1 ≤ (view_page_params pageRaw pageSizeRaw).1
  ∧ (1 ≤ (view_page_params pageRaw pageSizeRaw).2 ∧
      (view_page_params pageRaw pageSizeRaw).2 ≤ MAX_PAGE_SIZE)
  ∧ (pageRaw.bind pyInt? = none →
      (view_page_params pageRaw pageSizeRaw).1 = 1)
  ∧ (pageSizeRaw.bind pyInt? = none →
      (view_page_params pageRaw pageSizeRaw).2 = DEFAULT_PAGE_SIZE)
  ∧ (∀ n : Int, pageRaw.bind pyInt? = some n →
      (view_page_params pageRaw pageSizeRaw).1 = max n 1)
  ∧ (∀ page page_size : Int,
      (get_accounts_page accounts mapping client_id search page
        page_size).rows =
      ((accounts.filter (account_matches (get_account_ids_for_client mapping
        client_id) search)).drop ((page - 1) * page_size).toNat).take
        page_size.toNat) := by
  refine ⟨?_, ⟨?_, ?_⟩, ?_, ?_, ?_, ?_⟩
  · cases hp : pageRaw.bind pyInt? with
    | none => simp [view_page_params, parse_int, hp]
    | some n =>
        simp only [view_page_params, parse_int, hp]
        exact le_max_right n 1
  · cases hps : pageSizeRaw.bind pyInt? with
    | none => simp [view_page_params, parse_int, hps, DEFAULT_PAGE_SIZE]
    | some n =>
        simp only [view_page_params, parse_int, hps, MAX_PAGE_SIZE]
        rw [if_pos (by decide)]
        exact le_min (le_max_right n 1) (by decide)
  · cases hps : pageSizeRaw.bind pyInt? with
    | none =>
        simp [view_page_params, parse_int, hps, DEFAULT_PAGE_SIZE,
          MAX_PAGE_SIZE]
    | some n =>
        simp only [view_page_params, parse_int, hps, MAX_PAGE_SIZE]
        rw [if_pos (by decide)]
        exact min_le_right _ _
  · intro hp
    simp [view_page_params, parse_int, hp]
  · intro hps
    simp [view_page_params, parse_int, hps]
  · intro n hp
    simp [view_page_params, parse_int, hp]
  · intro page page_size
    rfl

/-- Concrete instantiation of the amended C9 theorem: a non-integer page
falls back to 1 and the page size never exceeds the configured cap. -/
theorem pagination_offset_and_clamping_witness :
    (view_page_params (some "abc") (some "999")).1 = 1 ∧
    (view_page_params (some "abc") (some "999")).2 ≤ MAX_PAGE_SIZE :=
  ⟨(pagination_offset_and_clamping (some "abc") (some "999") [] [] none
      "").2.2.1 (by decide),
   (pagination_offset_and_clamping (some "abc") (some "999") [] [] none
      "").2.1.2⟩

end Soundcheck
